import Mathlib

/-!
Verification development for the OAuth install/callback/uninstall flows of the
AgentGPT platform (providers Slack and SID).

The installer logic and the two HTTP info handlers are translated from
src/platform/reworkd_platform/services/oauth_installers.py and
src/platform/reworkd_platform/web/api/auth/views.py.  The database CRUD layer,
the credential model class, and the encryption service live elsewhere in the
repository and are modelled from the specification; each such definition says
so in its doc comment.  Network calls (token exchange, revoke) are modelled by
passing the provider response as an explicit argument and by recording outgoing
revoke requests in the result.
-/

namespace Oauth

/-- Modelled from the spec: the authenticated user object (schemas.UserBase is
not under src/); only its id is consulted by the installer code. -/
structure UserBase where
  id : String
deriving DecidableEq

/-- Modelled from the spec: the process-wide settings object (settings.py is
not under src/); only the OAuth client fields used by the installers appear. -/
structure Settings where
  slack_client_id : String
  slack_client_secret : String
  slack_redirect_uri : String
  sid_client_id : String
  sid_client_secret : String
  sid_redirect_uri : String
deriving DecidableEq

/-- Modelled from the spec: the persisted credential record
(db/models/auth.py is not under src/).  Fields follow section 3 of the spec:
provider, a unique per-flow state token, encrypted access and refresh tokens
(nullable, hence Option), token type, scope, expiration, redirect_uri and a
soft-delete marker.  State tokens and row identifiers are opaque values,
modelled as Nat; timestamps are modelled as Int. -/
structure OauthCredentials where
  id : Nat
  user_id : String
  provider : String
  state : Nat
  access_token_enc : Option String
  refresh_token_enc : Option String
  token_type : Option String
  scope : Option String
  access_token_expiration : Option Int
  redirect_uri : String
  delete_date : Option Int
deriving DecidableEq

/-- Modelled from the spec: the database, an external collaborator holding the
credential rows.  The counter supplies the fresh identifiers and fresh state
tokens that the spec requires create_installation to generate. -/
structure DB where
  records : List OauthCredentials
  counter : Nat
deriving DecidableEq

/-- Modelled from the spec: encrypt(plaintext) = ciphertext.  The concrete
encryption scheme (services/security.py) is not under src/; it is modelled as
a reversible marker so that ciphertext differs from plaintext and decryption
inverts encryption, the two properties the spec states. -/
def encrypt (s : String) : String := String.mk ('#' :: s.data)

/-- Modelled from the spec: decrypt(ciphertext) = plaintext, the inverse of
encrypt. -/
def decrypt (s : String) : String := String.mk (s.data.drop 1)

/-- Modelled from the spec: create_installation(user, provider, redirect_uri)
returns a pending record with a fresh state token, holding the requested
redirect_uri and no tokens yet. -/
def create_installation (db : DB) (user : UserBase) (provider : String)
    (redirect_uri : String) : OauthCredentials × DB :=
  let created : OauthCredentials :=
    { id := db.counter
      user_id := user.id
      provider := provider
      state := db.counter
      access_token_enc := none
      refresh_token_enc := none
      token_type := none
      scope := none
      access_token_expiration := none
      redirect_uri := redirect_uri
      delete_date := none }
  (created, { records := db.records ++ [created], counter := db.counter + 1 })

/-- Modelled from the spec: get_installation_by_state(state) returns the
record with that state token, or absent. -/
def get_installation_by_state (db : DB) (st : Nat) : Option OauthCredentials :=
  db.records.find? (fun r => r.state == st)

/-- Modelled from the spec: get_installation_by_user_id(user_id, provider)
returns the record for that user and provider, or absent.  Soft-deleted rows
are returned as well: the spec lifecycle says a soft-deleted record is found
and resurrected when the user re-installs the SID provider. -/
def get_installation_by_user_id (db : DB) (uid : String) (provider : String) :
    Option OauthCredentials :=
  db.records.find? (fun r => r.user_id == uid && r.provider == provider)

/-- Modelled from the spec: save(record) persists the updated record, replacing
the stored row with the same identifier. -/
def save (db : DB) (r : OauthCredentials) : DB :=
  { db with records := db.records.map (fun x => if x.id == r.id then r else x) }

/-- Modelled from the spec: delete(record) soft-deletes the row, setting its
delete_date marker (section 3: soft-deleted, tokens cleared, delete_date set). -/
def softDelete (db : DB) (r : OauthCredentials) (now : Int) : DB :=
  save db { r with delete_date := some now }

/-- Errors surfaced by the installer code: forbidden (HTTP 403, from
web/api/http_responses which is not under src/), the NotImplementedError
raised by installer_factory, and the type error a decrypt of an absent
(null) ciphertext raises in the encryption service. -/
inductive PyErr where
  | forbidden
  | notImplementedError
  | typeError
deriving DecidableEq

/-- An authorization URL, kept as its base address plus its query parameters
in order, so that theorems can speak about the data the URL is built from. -/
structure AuthorizeUrl where
  base : String
  params : List (String × String)
deriving DecidableEq

/-- Body of a revoke request posted to the SID revoke endpoint. -/
structure RevokeRequest where
  client_id : String
  client_secret : String
  token : String
deriving DecidableEq

/-- Response of the Slack token-exchange endpoint, the fields the source
reads from oauth_v2_access. -/
structure SlackOauthResponse where
  access_token : String
  token_type : String
  scope : String
deriving DecidableEq

/-- Response of the SID token endpoint, the fields the source reads. -/
structure SidTokenResponse where
  access_token : String
  refresh_token : String
  expires_in : Int
deriving DecidableEq

/-- OAuthInstaller.store_access_token from oauth_installers.py: stores the
encrypted access token on the record. -/
def store_access_token (creds : OauthCredentials) (access_token : String) :
    OauthCredentials :=
  { creds with access_token_enc := some (encrypt access_token) }

/-- OAuthInstaller.store_refresh_token from oauth_installers.py: stores the
encrypted refresh token on the record. -/
def store_refresh_token (creds : OauthCredentials) (refresh_token : String) :
    OauthCredentials :=
  { creds with refresh_token_enc := some (encrypt refresh_token) }

/-- Modelled from the spec: the URL built by slack_sdk AuthorizeUrlGenerator
(external library) with the arguments the source passes: client id, the
settings redirect uri, scope chat:write, and the state token. -/
def slack_authorize_url (s : Settings) (st : Nat) : AuthorizeUrl :=
  { base := "https://slack.com/oauth/v2/authorize"
    params := [("client_id", s.slack_client_id),
               ("redirect_uri", s.slack_redirect_uri),
               ("scope", "chat:write"),
               ("state", toString st)] }

/-- SlackInstaller.install: creates a pending installation and returns the
authorization URL carrying its state token. -/
def slack_install (s : Settings) (db : DB) (user : UserBase)
    (redirect_uri : String) : AuthorizeUrl × DB :=
  let (installation, db1) := create_installation db user "slack" redirect_uri
  (slack_authorize_url s installation.state, db1)

/-- SlackInstaller.install_callback: looks up the record by state, raises
forbidden when absent, otherwise stores the access token, token type and scope
from the token-exchange response and saves the record.  The response of the
synchronous WebClient call is passed in as an argument; the code argument is
forwarded to that call and not otherwise consulted. -/
def slack_install_callback (s : Settings) (db : DB) (code : String) (st : Nat)
    (resp : SlackOauthResponse) : Except PyErr OauthCredentials × DB :=
  match get_installation_by_state db st with
  | none => (.error .forbidden, db)
  | some creds =>
    let creds1 := store_access_token creds resp.access_token
    let creds2 := { creds1 with token_type := some resp.token_type,
                                scope := some resp.scope }
    (.ok creds2, save db creds2)

/-- SlackInstaller.uninstall: raises NotImplementedError. -/
def slack_uninstall (db : DB) : Except PyErr Bool × DB × List RevokeRequest :=
  (.error .notImplementedError, db, [])

/-- The SID authorization URL built by SIDInstaller.install: the fixed host
with the query parameters the source assembles. -/
def sid_authorize_url (s : Settings) (st : Nat) : AuthorizeUrl :=
  { base := "https://me.sid.ai/api/oauth/authorize"
    params := [("client_id", s.sid_client_id),
               ("redirect_uri", s.sid_redirect_uri),
               ("response_type", "code"),
               ("scope", "data:query offline_access"),
               ("state", toString st),
               ("audience", "https://api.sid.ai/api/v1/"),
               ("app_name", "AgentGPT")] }

/-- SIDInstaller.install: if a record for this user and provider exists it is
un-deleted (delete_date cleared) and persisted; otherwise a pending
installation is created.  The authorization URL carries the state token of
the record used. -/
def sid_install (s : Settings) (db : DB) (user : UserBase)
    (redirect_uri : String) : AuthorizeUrl × DB :=
  match get_installation_by_user_id db user.id "sid" with
  | some installation =>
    let installation1 := { installation with delete_date := none }
    (sid_authorize_url s installation1.state, save db installation1)
  | none =>
    let (installation, db1) := create_installation db user "sid" redirect_uri
    (sid_authorize_url s installation.state, db1)

/-- SIDInstaller.install_callback: looks up the record by state, raises
forbidden when absent, otherwise stores the encrypted access and refresh
tokens from the token-endpoint response, sets access_token_expiration to
now plus expires_in, and saves the record.  The awaited token-endpoint
response is passed in as an argument; the code argument is forwarded in the
request body and not otherwise consulted. -/
def sid_install_callback (s : Settings) (db : DB) (code : String) (st : Nat)
    (resp : SidTokenResponse) (now : Int) : Except PyErr OauthCredentials × DB :=
  match get_installation_by_state db st with
  | none => (.error .forbidden, db)
  | some creds =>
    let creds1 := store_access_token creds resp.access_token
    let creds2 := store_refresh_token creds1 resp.refresh_token
    let creds3 := { creds2 with
                    access_token_expiration := some (now + resp.expires_in) }
    (.ok creds3, save db creds3)

/-- SIDInstaller.uninstall: returns false when no record exists or the stored
access token ciphertext equals the empty string.  Otherwise it decrypts the
refresh token ciphertext (when that field is absent the decrypt call of the
encryption service fails with a type error, before any mutation), clears both
ciphertext fields, soft-deletes the row, and posts a revoke request built from
the decrypted token; the response of the revoke post is never read, which the
unused revokeOk argument makes explicit. -/
def sid_uninstall (s : Settings) (db : DB) (user : UserBase) (now : Int)
    (revokeOk : Bool) : Except PyErr Bool × DB × List RevokeRequest :=
  match get_installation_by_user_id db user.id "sid" with
  | none => (.ok false, db, [])
  | some creds =>
    if creds.access_token_enc == some "" then (.ok false, db, [])
    else
      match creds.refresh_token_enc with
      | none => (.error .typeError, db, [])
      | some ct =>
        let delete_token := decrypt ct
        let creds1 := { creds with access_token_enc := some "",
                                   refresh_token_enc := some "" }
        let db1 := softDelete db creds1 now
        (.ok true, db1,
          [{ client_id := s.sid_client_id,
             client_secret := s.sid_client_secret,
             token := delete_token }])

/-- The installer kinds the factory can produce. -/
inductive InstallerKind where
  | slack
  | sid
deriving DecidableEq

/-- The integrations registry from oauth_installers.py, keyed by the provider
constants of the two installer classes. -/
def integrations : List (String × InstallerKind) :=
  [("slack", InstallerKind.slack), ("sid", InstallerKind.sid)]

/-- installer_factory: returns the registered installer for the provider key,
and raises NotImplementedError for every other provider. -/
def installer_factory (provider : String) : Except PyErr InstallerKind :=
  match integrations.lookup provider with
  | some k => .ok k
  | none => .error .notImplementedError

/-- The body of the sid/info response. -/
structure SidInfo where
  connected : Bool
deriving DecidableEq

/-- sid_info from web/api/auth/views.py: connected is true exactly when a
record for the user and provider sid is found and its access token ciphertext
is neither null nor the empty string. -/
def sid_info (db : DB) (user : UserBase) : SidInfo :=
  match get_installation_by_user_id db user.id "sid" with
  | none => { connected := false }
  | some c =>
    { connected := c.access_token_enc.isSome && !(c.access_token_enc == some "") }

instance {ε α : Type} [DecidableEq ε] [DecidableEq α] :
    DecidableEq (Except ε α) := fun x y =>
  match x, y with
  | .ok a, .ok b =>
    if h : a = b then isTrue (by rw [h])
    else isFalse (fun hc => by cases hc; exact h rfl)
  | .error a, .error b =>
    if h : a = b then isTrue (by rw [h])
    else isFalse (fun hc => by cases hc; exact h rfl)
  | .ok _, .error _ => isFalse (fun hc => by cases hc)
  | .error _, .ok _ => isFalse (fun hc => by cases hc)

/-- Well-formedness of a database state: row identifiers and state tokens are
below the freshness counter and are pairwise distinct, as the spec requires of
the externally generated state tokens and row identifiers. -/
def WF (db : DB) : Prop :=
  (∀ r ∈ db.records, r.id < db.counter ∧ r.state < db.counter) ∧
  (db.records.map (fun r => r.id)).Nodup ∧
  (db.records.map (fun r => r.state)).Nodup

instance (db : DB) : Decidable (WF db) := by
  unfold WF; infer_instance

/-- Sample settings used to instantiate witnesses. -/
def settings0 : Settings :=
  { slack_client_id := "slack-id"
    slack_client_secret := "slack-secret"
    slack_redirect_uri := "https://app/slack/cb"
    sid_client_id := "sid-id"
    sid_client_secret := "sid-secret"
    sid_redirect_uri := "https://app/sid/cb" }

/-- Sample user used to instantiate witnesses. -/
def user0 : UserBase := { id := "alice" }

/-- An empty database. -/
def emptyDB : DB := { records := [], counter := 0 }

/-- A sample stored credential row for user0 with both tokens present. -/
def rec0 : OauthCredentials :=
  { id := 0
    user_id := "alice"
    provider := "sid"
    state := 0
    access_token_enc := some (encrypt "atok")
    refresh_token_enc := some (encrypt "rtok")
    token_type := none
    scope := none
    access_token_expiration := none
    redirect_uri := "https://app/done"
    delete_date := some 5 }

/-- A database holding only rec0. -/
def db0 : DB := { records := [rec0], counter := 1 }

/-- C1: for both providers, install_callback with a state matching no pending
record fails with the forbidden (403) authorization error and leaves the
database unchanged, creating and mutating nothing. -/
theorem callback_unknown_state_forbidden (s : Settings) (db : DB)
    (code : String) (st : Nat) (slackResp : SlackOauthResponse)
    (sidResp : SidTokenResponse) (now : Int)
    (h : get_installation_by_state db st = none) :
    slack_install_callback s db code st slackResp = (.error .forbidden, db) ∧
    sid_install_callback s db code st sidResp now = (.error .forbidden, db) := by
  constructor <;> simp [slack_install_callback, sid_install_callback, h]

/-- Witness for C1 at the empty database. -/
theorem callback_unknown_state_forbidden_witness :
    slack_install_callback settings0 emptyDB "abc" 0 ⟨"a", "bot", "chat"⟩ =
      (.error .forbidden, emptyDB) ∧
    sid_install_callback settings0 emptyDB "abc" 0 ⟨"a", "r", 3600⟩ 0 =
      (.error .forbidden, emptyDB) :=
  callback_unknown_state_forbidden settings0 emptyDB "abc" 0 ⟨"a", "bot", "chat"⟩
    ⟨"a", "r", 3600⟩ 0 (by decide)

/-- C5: the token-storing helpers persist exactly the encrypted token, the
ciphertext differs from the plaintext, and decryption recovers the original
plaintext. -/
theorem stored_tokens_encrypted (creds : OauthCredentials) (tok : String) :
    (store_access_token creds tok).access_token_enc = some (encrypt tok) ∧
    (store_refresh_token creds tok).refresh_token_enc = some (encrypt tok) ∧
    encrypt tok ≠ tok ∧
    decrypt (encrypt tok) = tok := by
  refine ⟨rfl, rfl, ?_, rfl⟩
  intro h
  have h2 := congrArg (fun t => t.data.length) h
  simp [encrypt] at h2

/-- C7: installer_factory maps slack and sid to their installers and fails
with NotImplementedError on every other provider string. -/
theorem installer_factory_spec :
    installer_factory "slack" = .ok InstallerKind.slack ∧
    installer_factory "sid" = .ok InstallerKind.sid ∧
    ∀ provider : String, provider ≠ "slack" → provider ≠ "sid" →
      installer_factory provider = .error .notImplementedError := by
  refine ⟨rfl, rfl, ?_⟩
  intro p h1 h2
  have e1 : (p == "slack") = false := beq_eq_false_iff_ne.mpr h1
  have e2 : (p == "sid") = false := beq_eq_false_iff_ne.mpr h2
  simp [installer_factory, integrations, List.lookup, e1, e2]

/-- Witness for C7 at an unregistered provider. -/
theorem installer_factory_spec_witness :
    installer_factory "github" = .error .notImplementedError :=
  installer_factory_spec.2.2 "github" (by decide) (by decide)

/-- C9: when a record for the user already exists, SID install changes only
its delete_date field (clearing it), persists that single change, and builds
the authorization URL from the old state token; state, redirect_uri and all
token fields are untouched. -/
theorem sid_install_existing_frame (s : Settings) (db : DB) (user : UserBase)
    (redirect_uri : String) (r : OauthCredentials)
    (h : get_installation_by_user_id db user.id "sid" = some r) :
    sid_install s db user redirect_uri =
      (sid_authorize_url s r.state, save db { r with delete_date := none }) := by
  simp [sid_install, h]

/-- Witness for C9 at a database holding a soft-deleted record. -/
theorem sid_install_existing_frame_witness :
    sid_install settings0 db0 user0 "https://other" =
      (sid_authorize_url settings0 rec0.state,
       save db0 { rec0 with delete_date := none }) :=
  sid_install_existing_frame settings0 db0 user0 "https://other" rec0 (by decide)

/-- C6: a SID install_callback whose state matches a pending record saves a
record carrying the encrypted provider access and refresh tokens, with
access_token_expiration equal to now plus expires_in, and that record is
persisted in the resulting database. -/
theorem sid_callback_success (s : Settings) (db : DB) (code : String)
    (st : Nat) (resp : SidTokenResponse) (now : Int) (creds : OauthCredentials)
    (h : get_installation_by_state db st = some creds) :
    ∃ c : OauthCredentials,
      sid_install_callback s db code st resp now = (.ok c, save db c) ∧
      c.access_token_enc = some (encrypt resp.access_token) ∧
      c.refresh_token_enc = some (encrypt resp.refresh_token) ∧
      c.access_token_expiration = some (now + resp.expires_in) ∧
      c ∈ (save db c).records := by
  have hmem : creds ∈ db.records := List.mem_of_find?_eq_some h
  refine ⟨{ creds with
            access_token_enc := some (encrypt resp.access_token)
            refresh_token_enc := some (encrypt resp.refresh_token)
            access_token_expiration := some (now + resp.expires_in) },
          ?_, rfl, rfl, rfl, ?_⟩
  · simp [sid_install_callback, h, store_access_token, store_refresh_token]
  · have himg := List.mem_map_of_mem
      (fun x => if x.id == creds.id then
        { creds with
          access_token_enc := some (encrypt resp.access_token)
          refresh_token_enc := some (encrypt resp.refresh_token)
          access_token_expiration := some (now + resp.expires_in) }
        else x) hmem
    simpa [save] using himg

/-- A list of length at most one has at most one member. -/
theorem length_le_one_unique {α : Type} {l : List α} (h : l.length ≤ 1)
    {a b : α} (ha : a ∈ l) (hb : b ∈ l) : a = b := by
  cases l with
  | nil => cases ha
  | cons x t =>
    cases t with
    | nil =>
      rw [List.mem_singleton] at ha hb
      rw [ha, hb]
    | cons y t2 =>
      simp only [List.length_cons] at h
      omega

/-- Replacing the row with a given identifier leaves the list of identifiers
unchanged. -/
theorem ids_map_save (records : List OauthCredentials) (r : OauthCredentials) :
    (records.map (fun x => if x.id == r.id then r else x)).map (fun x => x.id) =
      records.map (fun x => x.id) := by
  induction records with
  | nil => rfl
  | cons a t ih =>
    simp only [List.map_cons, ih]
    cases h : (a.id == r.id) with
    | true =>
      have := beq_iff_eq.mp h
      simp [this]
    | false => simp

/-- If find? locates r and the identifiers are distinct, then after replacing
the row with the identifier of r by a row r1 that also satisfies the
predicate, find? locates r1. -/
theorem find?_save_found (p : OauthCredentials → Bool)
    (records : List OauthCredentials) (r r1 : OauthCredentials)
    (hnodup : (records.map (fun x => x.id)).Nodup)
    (hfind : records.find? p = some r) (hp : p r1 = true)
    (hid : r1.id = r.id) :
    (records.map (fun x => if x.id == r1.id then r1 else x)).find? p =
      some r1 := by
  induction records with
  | nil => cases hfind
  | cons a t ih =>
    rw [List.map_cons, List.nodup_cons] at hnodup
    cases hpa : p a with
    | true =>
      rw [List.find?_cons_of_pos _ hpa] at hfind
      injection hfind with heq
      subst heq
      have hcond : (a.id == r1.id) = true := beq_iff_eq.mpr hid.symm
      simp only [List.map_cons, hcond, if_true]
      exact List.find?_cons_of_pos _ hp
    | false =>
      rw [List.find?_cons_of_neg _ (by simp [hpa])] at hfind
      have hrmem : r ∈ t := List.mem_of_find?_eq_some hfind
      have haid : a.id ≠ r.id := by
        intro he
        exact hnodup.1 (by rw [he]; exact List.mem_map_of_mem _ hrmem)
      have hcond : (a.id == r1.id) = false :=
        beq_eq_false_iff_ne.mpr (by rw [hid]; exact haid)
      simp only [List.map_cons, hcond, if_false]
      rw [List.find?_cons_of_neg _ (by simp [hpa])]
      exact ih hnodup.2 hfind

/-- C8: sid/info reports connected exactly when a record for the user and
provider sid exists whose access token ciphertext is neither null nor empty;
the hypothesis states that the database holds at most one sid row for the
user, which install maintains. -/
theorem sid_info_connected (db : DB) (user : UserBase)
    (huniq : (db.records.filter
      (fun r => r.user_id == user.id && r.provider == "sid")).length ≤ 1) :
    ((sid_info db user).connected = true ↔
      ∃ r ∈ db.records, r.user_id = user.id ∧ r.provider = "sid" ∧
        r.access_token_enc ≠ none ∧ r.access_token_enc ≠ some "") := by
  cases hf : db.records.find?
      (fun r => r.user_id == user.id && r.provider == "sid") with
  | none =>
    simp only [sid_info, get_installation_by_user_id, hf]
    constructor
    · intro h
      exact absurd h (by simp)
    · rintro ⟨r, hmem, hu, hp, -, -⟩
      have hnot := List.find?_eq_none.mp hf r hmem
      simp [hu, hp] at hnot
  | some c =>
    have hcmem : c ∈ db.records := List.mem_of_find?_eq_some hf
    have hcp := List.find?_some hf
    have hcand := Bool.and_eq_true_iff.mp hcp
    have hcu : c.user_id = user.id := beq_iff_eq.mp hcand.1
    have hcprov : c.provider = "sid" := beq_iff_eq.mp hcand.2
    simp only [sid_info, get_installation_by_user_id, hf]
    constructor
    · intro hconn
      have hand := Bool.and_eq_true_iff.mp hconn
      refine ⟨c, hcmem, hcu, hcprov, ?_, ?_⟩
      · exact Option.isSome_iff_ne_none.mp hand.1
      · intro he
        rw [he] at hand
        simp at hand
    · rintro ⟨r, hmem, hu, hp, hne1, hne2⟩
      have hrfilter : r ∈ db.records.filter
          (fun r => r.user_id == user.id && r.provider == "sid") :=
        List.mem_filter.mpr ⟨hmem, by simp [hu, hp]⟩
      have hcfilter : c ∈ db.records.filter
          (fun r => r.user_id == user.id && r.provider == "sid") :=
        List.mem_filter.mpr ⟨hcmem, hcp⟩
      have hrc : r = c := length_le_one_unique huniq hrfilter hcfilter
      subst hrc
      rcases ho : r.access_token_enc with _ | v
      · exact absurd ho hne1
      · have hv : v ≠ "" := by
          intro hv0
          exact hne2 (by rw [ho, hv0])
        simp [ho, hv]

/-- Witness for C8 at a database holding one connected sid record. -/
theorem sid_info_connected_witness :
    (sid_info db0 user0).connected = true ↔
      ∃ r ∈ db0.records, r.user_id = user0.id ∧ r.provider = "sid" ∧
        r.access_token_enc ≠ none ∧ r.access_token_enc ≠ some "" :=
  sid_info_connected db0 user0 (by decide)

/-- Witness for C6 at a database holding a matching pending record. -/
theorem sid_callback_success_witness :
    ∃ c : OauthCredentials,
      sid_install_callback settings0 db0 "c" 0 ⟨"a", "r", 3600⟩ 100 =
        (.ok c, save db0 c) ∧
      c.access_token_enc = some (encrypt "a") ∧
      c.refresh_token_enc = some (encrypt "r") ∧
      c.access_token_expiration = some (100 + 3600) ∧
      c ∈ (save db0 c).records :=
  sid_callback_success settings0 db0 "c" 0 ⟨"a", "r", 3600⟩ 100 rec0 (by decide)

/-- A sample active credential row for user0 with both tokens present. -/
def recActive : OauthCredentials :=
  { id := 0
    user_id := "alice"
    provider := "sid"
    state := 0
    access_token_enc := some (encrypt "a0")
    refresh_token_enc := some (encrypt "r0")
    token_type := none
    scope := none
    access_token_expiration := none
    redirect_uri := "https://app/done"
    delete_date := none }

/-- A database holding only recActive. -/
def dbActive : DB := { records := [recActive], counter := 1 }

/-- C2 (amended): for SID, uninstall followed by install resurrects the
existing row: the uninstall succeeds, the subsequent install reuses the row
(same identifier), clears delete_date, builds the URL from the old state
token, and the resulting record keeps its previous state token unchanged
rather than receiving a fresh one. -/
theorem sid_reinstall_resurrects (s : Settings) (db : DB) (user : UserBase)
    (now : Int) (rOk : Bool) (redirect_uri : String) (r : OauthCredentials)
    (ct : String) (hwf : WF db)
    (hfind : get_installation_by_user_id db user.id "sid" = some r)
    (hacc : r.access_token_enc ≠ some "")
    (href : r.refresh_token_enc = some ct) :
    ∃ (db1 db2 : DB) (url : AuthorizeUrl),
      sid_uninstall s db user now rOk =
        (.ok true, db1,
         [{ client_id := s.sid_client_id, client_secret := s.sid_client_secret,
            token := decrypt ct }]) ∧
      sid_install s db1 user redirect_uri = (url, db2) ∧
      url = sid_authorize_url s r.state ∧
      get_installation_by_user_id db2 user.id "sid" =
        some { r with access_token_enc := some "", refresh_token_enc := some "",
                      delete_date := none } := by
  have hguard : (r.access_token_enc == some "") = false :=
    beq_eq_false_iff_ne.mpr hacc
  have hfind0 : db.records.find?
      (fun x => x.user_id == user.id && x.provider == "sid") = some r := hfind
  have hrp := List.find?_some hfind0
  have hfind1 : get_installation_by_user_id
      (save db { r with access_token_enc := some "",
                        refresh_token_enc := some "",
                        delete_date := some now }) user.id "sid" =
      some { r with access_token_enc := some "", refresh_token_enc := some "",
                    delete_date := some now } := by
    exact find?_save_found _ db.records r _ hwf.2.1 hfind hrp rfl
  have hids1 : ((save db { r with access_token_enc := some "",
                                  refresh_token_enc := some "",
                                  delete_date := some now }).records.map
      (fun x => x.id)).Nodup := by
    unfold save
    rw [ids_map_save]
    exact hwf.2.1
  have hfind2 : get_installation_by_user_id
      (save (save db { r with access_token_enc := some "",
                              refresh_token_enc := some "",
                              delete_date := some now })
        { r with access_token_enc := some "", refresh_token_enc := some "",
                 delete_date := none }) user.id "sid" =
      some { r with access_token_enc := some "", refresh_token_enc := some "",
                    delete_date := none } := by
    exact find?_save_found _ _ _ _ hids1 hfind1 hrp rfl
  refine ⟨save db { r with access_token_enc := some "",
                           refresh_token_enc := some "",
                           delete_date := some now },
          save (save db { r with access_token_enc := some "",
                                 refresh_token_enc := some "",
                                 delete_date := some now })
            { r with access_token_enc := some "", refresh_token_enc := some "",
                     delete_date := none },
          sid_authorize_url s r.state, ?_, ?_, rfl, hfind2⟩
  · simp [sid_uninstall, hfind, hguard, href, softDelete]
  · simp [sid_install, hfind1]

/-- Witness for C2 at a database holding one active record. -/
theorem sid_reinstall_resurrects_witness :
    ∃ (db1 db2 : DB) (url : AuthorizeUrl),
      sid_uninstall settings0 dbActive user0 7 true =
        (.ok true, db1,
         [{ client_id := settings0.sid_client_id,
            client_secret := settings0.sid_client_secret,
            token := decrypt (encrypt "r0") }]) ∧
      sid_install settings0 db1 user0 "https://app/done" = (url, db2) ∧
      url = sid_authorize_url settings0 recActive.state ∧
      get_installation_by_user_id db2 user0.id "sid" =
        some { recActive with access_token_enc := some "",
                              refresh_token_enc := some "",
                              delete_date := none } :=
  sid_reinstall_resurrects settings0 dbActive user0 7 true "https://app/done"
    recActive (encrypt "r0") (by decide) (by decide) (by decide) (by decide)

/-- C2 counterexample: uninstalling and re-installing the single active
record (state token 0) yields the same row with delete_date cleared but with
its old state token 0 in both the row and the issued URL, while the fresh
counter 1 is never consumed: no fresh state token is issued. -/
theorem sid_reinstall_state_not_fresh_cex :
    (sid_install settings0 (sid_uninstall settings0 dbActive user0 7 true).2.1
        user0 "https://app/done").2.records =
      [{ recActive with access_token_enc := some "",
                        refresh_token_enc := some "",
                        delete_date := none }] ∧
    recActive.state = 0 ∧
    (sid_uninstall settings0 dbActive user0 7 true).2.1.counter = 1 ∧
    ("state", "0") ∈
      (sid_install settings0 (sid_uninstall settings0 dbActive user0 7 true).2.1
        user0 "https://app/done").1.params := by decide

/-- C3 (amended): install followed immediately by install_callback with the
state just issued succeeds for both providers; the persisted record carries
the redirect_uri passed to install for Slack always, and for SID whenever no
prior record for that user existed.  When a SID prior record exists, install
reuses it and the prior redirect_uri is kept, as the counterexample shows. -/
theorem install_then_callback_redirect (s : Settings) (db : DB)
    (user : UserBase) (redirect_uri code : String)
    (slackResp : SlackOauthResponse) (sidResp : SidTokenResponse) (now : Int)
    (hwf : WF db) :
    (("state", toString db.counter) ∈
        (slack_install s db user redirect_uri).1.params ∧
     ∃ c : OauthCredentials,
       slack_install_callback s (slack_install s db user redirect_uri).2 code
           db.counter slackResp =
         (.ok c, save (slack_install s db user redirect_uri).2 c) ∧
       c.redirect_uri = redirect_uri) ∧
    (get_installation_by_user_id db user.id "sid" = none →
     ("state", toString db.counter) ∈
        (sid_install s db user redirect_uri).1.params ∧
     ∃ c : OauthCredentials,
       sid_install_callback s (sid_install s db user redirect_uri).2 code
           db.counter sidResp now =
         (.ok c, save (sid_install s db user redirect_uri).2 c) ∧
       c.redirect_uri = redirect_uri) := by
  have hnone : db.records.find? (fun x => x.state == db.counter) = none := by
    apply List.find?_eq_none.mpr
    intro x hx
    have hlt := (hwf.1 x hx).2
    simp only [beq_iff_eq]
    omega
  have hfound : ∀ provider : String,
      get_installation_by_state
        (create_installation db user provider redirect_uri).2 db.counter =
      some (create_installation db user provider redirect_uri).1 := by
    intro provider
    unfold get_installation_by_state create_installation
    simp [List.find?_append, hnone]
  constructor
  · constructor
    · simp [slack_install, create_installation, slack_authorize_url]
    · refine ⟨{ (create_installation db user "slack" redirect_uri).1 with
                access_token_enc := some (encrypt slackResp.access_token)
                token_type := some slackResp.token_type
                scope := some slackResp.scope }, ?_, rfl⟩
      simp [slack_install, slack_install_callback, hfound "slack",
        store_access_token]
  · intro hmiss
    constructor
    · simp [sid_install, hmiss, create_installation, sid_authorize_url]
    · refine ⟨{ (create_installation db user "sid" redirect_uri).1 with
                access_token_enc := some (encrypt sidResp.access_token)
                refresh_token_enc := some (encrypt sidResp.refresh_token)
                access_token_expiration := some (now + sidResp.expires_in) },
              ?_, rfl⟩
      simp [sid_install, hmiss, sid_install_callback, hfound "sid",
        store_access_token, store_refresh_token]

/-- Witness for C3 at the empty database. -/
theorem install_then_callback_redirect_witness :
    ("state", toString emptyDB.counter) ∈
        (sid_install settings0 emptyDB user0 "https://app/done").1.params ∧
    ∃ c : OauthCredentials,
      sid_install_callback settings0
          (sid_install settings0 emptyDB user0 "https://app/done").2 "code"
          emptyDB.counter ⟨"a", "r", 60⟩ 5 =
        (.ok c, save (sid_install settings0 emptyDB user0 "https://app/done").2 c) ∧
      c.redirect_uri = "https://app/done" :=
  (install_then_callback_redirect settings0 emptyDB user0 "https://app/done"
    "code" ⟨"a", "bot", "c"⟩ ⟨"a", "r", 60⟩ 5 (by decide)).2 (by decide)

/-- A sample prior sid record with redirect_uri https://app/A. -/
def recPrior : OauthCredentials :=
  { id := 0
    user_id := "alice"
    provider := "sid"
    state := 0
    access_token_enc := none
    refresh_token_enc := none
    token_type := none
    scope := none
    access_token_expiration := none
    redirect_uri := "https://app/A"
    delete_date := none }

/-- A database holding only recPrior. -/
def dbPrior : DB := { records := [recPrior], counter := 1 }

/-- C3 counterexample: with a prior sid record for the user whose
redirect_uri is https://app/A, install with redirect_uri https://app/B issues
state token 0, and the immediately following callback with that state
persists a record whose redirect_uri is still https://app/A, not the
requested https://app/B. -/
theorem install_then_callback_redirect_cex :
    ("state", "0") ∈
      (sid_install settings0 dbPrior user0 "https://app/B").1.params ∧
    ((sid_install_callback settings0
        (sid_install settings0 dbPrior user0 "https://app/B").2 "code" 0
        ⟨"a", "r", 60⟩ 0).1.toOption.map (fun c => c.redirect_uri)) =
      some "https://app/A" ∧
    ("https://app/A" : String) ≠ "https://app/B" := by decide

/-- C4 (amended): SID uninstall returns false with no side effects when no
record exists or the stored access token ciphertext is the empty string;
otherwise, when a refresh token ciphertext is present, it clears both
ciphertext fields, soft-deletes the row, posts one revoke request carrying
the decrypted refresh token, and returns true independently of the revoke
outcome; when the refresh token ciphertext is absent the decrypt step fails
before any mutation. -/
theorem sid_uninstall_spec (s : Settings) (db : DB) (user : UserBase)
    (now : Int) (b1 b2 : Bool) :
    (get_installation_by_user_id db user.id "sid" = none →
      sid_uninstall s db user now b1 = (.ok false, db, [])) ∧
    (∀ r : OauthCredentials,
      get_installation_by_user_id db user.id "sid" = some r →
      (r.access_token_enc = some "" →
        sid_uninstall s db user now b1 = (.ok false, db, [])) ∧
      (r.access_token_enc ≠ some "" → r.refresh_token_enc = none →
        sid_uninstall s db user now b1 = (.error .typeError, db, [])) ∧
      (∀ ct : String, r.access_token_enc ≠ some "" →
        r.refresh_token_enc = some ct →
        sid_uninstall s db user now b1 =
          (.ok true,
           save db { r with access_token_enc := some "",
                            refresh_token_enc := some "",
                            delete_date := some now },
           [{ client_id := s.sid_client_id,
              client_secret := s.sid_client_secret,
              token := decrypt ct }]))) ∧
    sid_uninstall s db user now b1 = sid_uninstall s db user now b2 := by
  refine ⟨?_, ?_, rfl⟩
  · intro h
    simp [sid_uninstall, h]
  · intro r hfind
    refine ⟨?_, ?_, ?_⟩
    · intro hacc
      have hg : (r.access_token_enc == some "") = true := beq_iff_eq.mpr hacc
      simp [sid_uninstall, hfind, hg]
    · intro hacc href
      have hg : (r.access_token_enc == some "") = false :=
        beq_eq_false_iff_ne.mpr hacc
      simp [sid_uninstall, hfind, hg, href]
    · intro ct hacc href
      have hg : (r.access_token_enc == some "") = false :=
        beq_eq_false_iff_ne.mpr hacc
      simp [sid_uninstall, hfind, hg, href, softDelete]

/-- Witness for C4 on the active record: the success branch. -/
theorem sid_uninstall_spec_witness :
    sid_uninstall settings0 dbActive user0 7 true =
      (.ok true,
       save dbActive { recActive with access_token_enc := some "",
                                      refresh_token_enc := some "",
                                      delete_date := some 7 },
       [{ client_id := settings0.sid_client_id,
          client_secret := settings0.sid_client_secret,
          token := decrypt (encrypt "r0") }]) :=
  (((sid_uninstall_spec settings0 dbActive user0 7 true false).2.1 recActive
    (by decide)).2.2) (encrypt "r0") (by decide) (by decide)

/-- A record holding an access token ciphertext but no refresh token. -/
def recNoRefresh : OauthCredentials :=
  { id := 0
    user_id := "alice"
    provider := "sid"
    state := 0
    access_token_enc := some (encrypt "x4")
    refresh_token_enc := none
    token_type := none
    scope := none
    access_token_expiration := none
    redirect_uri := "https://app/done"
    delete_date := none }

/-- A database holding only recNoRefresh. -/
def dbNoRefresh : DB := { records := [recNoRefresh], counter := 1 }

/-- C4 counterexample: a record that holds an access token but no refresh
token: the claim requires the otherwise-branch to clear the fields, delete
the row, post a revoke and return true, but uninstall fails in the decrypt
step, deletes nothing and returns no boolean at all. -/
theorem sid_uninstall_spec_cex :
    sid_uninstall settings0 dbNoRefresh user0 3 true =
      (.error .typeError, dbNoRefresh, []) ∧
    (sid_uninstall settings0 dbNoRefresh user0 3 true).1 ≠ .ok true ∧
    (sid_uninstall settings0 dbNoRefresh user0 3 true).1 ≠ .ok false := by
  decide

/-- C10 (amended): the uninstall guard inspects only the access token field:
given a record, uninstall returns false exactly when the stored access token
ciphertext equals the empty string, even if a refresh token is stored; for a
record whose access token ciphertext is not the empty string, uninstall
proceeds to clear both fields, soft-delete the row and return true when a
refresh token ciphertext is present, while an absent refresh token makes the
decrypt step fail rather than yielding either boolean. -/
theorem sid_uninstall_guard (s : Settings) (db : DB) (user : UserBase)
    (now : Int) (rOk : Bool) (r : OauthCredentials)
    (hfind : get_installation_by_user_id db user.id "sid" = some r) :
    ((sid_uninstall s db user now rOk).1 = .ok false ↔
      r.access_token_enc = some "") ∧
    (∀ ct : String, r.access_token_enc ≠ some "" →
      r.refresh_token_enc = some ct →
      sid_uninstall s db user now rOk =
        (.ok true,
         save db { r with access_token_enc := some "",
                          refresh_token_enc := some "",
                          delete_date := some now },
         [{ client_id := s.sid_client_id, client_secret := s.sid_client_secret,
            token := decrypt ct }])) ∧
    (r.access_token_enc ≠ some "" → r.refresh_token_enc = none →
      (sid_uninstall s db user now rOk).1 = .error .typeError) := by
  refine ⟨?_, ?_, ?_⟩
  · by_cases hacc : r.access_token_enc = some ""
    · have hg : (r.access_token_enc == some "") = true := beq_iff_eq.mpr hacc
      simp [sid_uninstall, hfind, hg, hacc]
    · have hg : (r.access_token_enc == some "") = false :=
        beq_eq_false_iff_ne.mpr hacc
      cases href : r.refresh_token_enc with
      | none => simp [sid_uninstall, hfind, hg, href, hacc]
      | some ct => simp [sid_uninstall, hfind, hg, href, hacc]
  · intro ct hacc href
    have hg : (r.access_token_enc == some "") = false :=
      beq_eq_false_iff_ne.mpr hacc
    simp [sid_uninstall, hfind, hg, href, softDelete]
  · intro hacc href
    have hg : (r.access_token_enc == some "") = false :=
      beq_eq_false_iff_ne.mpr hacc
    simp [sid_uninstall, hfind, hg, href]

/-- A record whose access token ciphertext is the empty string while a
refresh token is stored. -/
def recEmptyAccess : OauthCredentials :=
  { id := 0
    user_id := "alice"
    provider := "sid"
    state := 0
    access_token_enc := some ""
    refresh_token_enc := some (encrypt "rr")
    token_type := none
    scope := none
    access_token_expiration := none
    redirect_uri := "https://app/done"
    delete_date := none }

/-- A database holding only recEmptyAccess. -/
def dbEmptyAccess : DB := { records := [recEmptyAccess], counter := 1 }

/-- Witness for C10: an empty-string access token yields false even though a
refresh token is stored. -/
theorem sid_uninstall_guard_witness :
    (sid_uninstall settings0 dbEmptyAccess user0 2 true).1 = .ok false :=
  ((sid_uninstall_guard settings0 dbEmptyAccess user0 2 true recEmptyAccess
    (by decide)).1).mpr (by decide)

/-- A record holding a non-empty access token ciphertext and no refresh
token, distinct from recNoRefresh. -/
def recNoRefreshB : OauthCredentials :=
  { id := 1
    user_id := "bob"
    provider := "sid"
    state := 4
    access_token_enc := some (encrypt "tok10")
    refresh_token_enc := none
    token_type := none
    scope := none
    access_token_expiration := none
    redirect_uri := "https://app/done"
    delete_date := none }

/-- A database holding only recNoRefreshB. -/
def dbNoRefreshB : DB := { records := [recNoRefreshB], counter := 5 }

/-- C10 counterexample: a record with a non-empty access token ciphertext and
an absent refresh token: uninstall does not proceed to return true as the
claim states; the decrypt of the absent ciphertext fails first. -/
theorem sid_uninstall_guard_cex :
    (sid_uninstall settings0 dbNoRefreshB ⟨"bob"⟩ 4 true).1 = .error .typeError ∧
    (sid_uninstall settings0 dbNoRefreshB ⟨"bob"⟩ 4 true).1 ≠ .ok true ∧
    dbNoRefreshB.records.head?.map (fun r => r.access_token_enc) =
      some (some (encrypt "tok10")) := by
  decide

end Oauth
